import Mathlib

/-!
Verification of the Degen-apes-swap repository's swap orchestration logic.

The development shallowly embeds three source units:
* the Vercel fulfillment handler (`api/swap` serverless function),
* the client-side transfer builder (`src/utils/swapTransaction.ts`),
* the mirror-node query client (`src/utils/mirrorNodeService.ts`).

Network effects (mirror-node queries, ledger submissions, wallet signing)
are modelled by explicit environment records supplying each external
outcome; the embedded functions are pure and executable.
-/

namespace DegenApeSwap

/-! ## Shared configuration constants (deployment-time environment variables) -/

def OLD_TOKEN_ID : String := "0.0.10034080"

def NEW_TOKEN_ID : String := "0.0.10172732"

def TREASURY_ACCOUNT_ID : String := "0.0.9300000"

def BLACKHOLE_ACCOUNT_ID : String := "0.0.10172931"

/-! ## Fulfillment handler (api/swap.ts)

The request body is JSON; absent fields are `undefined` in JS and are
modelled with `Option`.  A serial number inside the handler's `serials`
array can itself be `undefined` (a non-batch request with no
`serialNumber` yields `[undefined]`), so serial entries are
`Option Nat`.
-/

/-- JS truthiness of an optional string field: `undefined` and the empty
string are falsy, every other string is truthy. -/
def jsTruthyStr : Option String → Bool
  | none => false
  | some s => !s.isEmpty

/-- The JSON body of a `POST /api/swap` request, together with the HTTP
method used. -/
structure SwapRequest where
  method : String
  oldNftTransactionId : Option String
  userAccountId : Option String
  serialNumber : Option Nat
  serialNumbers : Option (List Nat)
  isBatch : Bool
deriving Repr, DecidableEq

/-- One NFT-transfer entry inside a transfer transaction
(`addNftTransfer(tokenId, serial, sender, receiver)`).  The serial is
`Option Nat` because the handler can push a JS `undefined` serial into a
transfer. -/
structure NftTransfer where
  tokenId : String
  serial : Option Nat
  sender : String
  receiver : String
deriving Repr, DecidableEq

/-- The JSON response of the handler.  Fields that a given branch does not
set are `none` (absent in the JSON).  The `message` and the echoed
`oldNftTransactionId` fields are omitted as they carry no verified
content. -/
structure ApiResponse where
  status : Nat
  success : Option Bool := none
  transactionId : Option String := none
  serialNumber : Option (Option Nat) := none
  serialNumbers : Option (List (Option Nat)) := none
  missingSerials : Option (List (Option Nat)) := none
  error : Option String := none
deriving Repr, DecidableEq

/-- Outcome of the handler's per-serial treasury-ownership query against
the mirror node (the `fetch` inside the `for (const serial of serials)`
loop). -/
inductive OwnershipCheck where
  /-- `response.ok` and `data.nfts` non-empty: treasury owns the serial. -/
  | owned
  /-- `response.ok` but `data.nfts` empty or absent. -/
  | notOwned
  /-- `response.ok` false (non-2xx HTTP status). -/
  | httpFail
  /-- the `fetch` or JSON parse threw. -/
  | fetchThrow
deriving Repr, DecidableEq

/-- Environment of one handler invocation: the mirror node's answer for
each queried serial (the mirror's state is fixed for the duration of the
request), the receipt status of the treasury-to-user transfer, and the
new transfer's transaction id. -/
structure HandlerEnv where
  ownership : Option Nat → OwnershipCheck
  receiptStatus : String
  newTxId : String

/-- `isMultiple = isBatch && serialNumbers && Array.isArray(serialNumbers)`:
note that an empty JS array is truthy, so a present empty list still
selects the batch path. -/
def isMultipleOf (req : SwapRequest) : Bool :=
  req.isBatch && req.serialNumbers.isSome

/-- `const serials = isMultiple ? serialNumbers : [serialNumber]` — for a
non-batch request this is a one-element array holding the (possibly
`undefined`) `serialNumber`. -/
def requestedSerials (req : SwapRequest) : List (Option Nat) :=
  if isMultipleOf req then (req.serialNumbers.getD []).map some
  else [req.serialNumber]

/-- The handler's required-fields guard:
`!oldNftTransactionId || !userAccountId || serials.length === 0`. -/
def fieldsMissing (req : SwapRequest) : Bool :=
  !jsTruthyStr req.oldNftTransactionId || !jsTruthyStr req.userAccountId ||
    (requestedSerials req).length == 0

/-- The serials pushed into `availableSerials` by the ownership loop:
those for which the mirror query succeeded and reported treasury
ownership. -/
def availableSerials (req : SwapRequest) (env : HandlerEnv) : List (Option Nat) :=
  (requestedSerials req).filter (fun s => env.ownership s == OwnershipCheck.owned)

/-- The serials pushed into `missingSerials` by the ownership loop: those
not owned by treasury, plus those whose ownership query failed (non-ok
response or thrown fetch). -/
def missingSerials (req : SwapRequest) (env : HandlerEnv) : List (Option Nat) :=
  (requestedSerials req).filter (fun s => !(env.ownership s == OwnershipCheck.owned))

/-- The treasury-to-user transfer the handler builds: one entry per
available serial, each moving that serial of the new token from the
treasury to the user's account. -/
def treasuryTransfer (req : SwapRequest) (env : HandlerEnv) : List NftTransfer :=
  (availableSerials req env).map (fun s =>
    { tokenId := NEW_TOKEN_ID, serial := s, sender := TREASURY_ACCOUNT_ID,
      receiver := req.userAccountId.getD "" })

/-- The fulfillment handler (`api/swap.ts`, `export default async function
handler`).  Returns the HTTP response together with the treasury-to-user
transfer it submitted (`none` when no transfer was executed).  The
mirror-node verification of the old transfer is a no-op in the source
(`TODO` comment) and therefore absent here. -/
def handler (req : SwapRequest) (env : HandlerEnv) :
    ApiResponse × Option (List NftTransfer) :=
  if req.method != "POST" then
    ({ status := 405, error := some "Method not allowed" }, none)
  else if fieldsMissing req then
    ({ status := 400,
       error := some "Missing required fields: oldNftTransactionId, userAccountId, and serialNumber(s)" },
     none)
  else
    let avail := availableSerials req env
    let missing := missingSerials req env
    if avail.isEmpty then
      ({ status := 400,
         error := some "All requested NFTs have already been swapped",
         missingSerials := some missing }, none)
    else
      let tx := treasuryTransfer req env
      if env.receiptStatus != "SUCCESS" then
        ({ status := 500,
           error := some ("New NFT transfer failed with status: " ++ env.receiptStatus) },
         some tx)
      else
        ({ status := 200, success := some true,
           transactionId := some env.newTxId,
           serialNumber := avail.head?,
           serialNumbers := some avail,
           missingSerials := if missing.isEmpty then none else some missing },
         some tx)

/-! ## Client-side transfer builder (src/utils/swapTransaction.ts)

Wallet state, the association query, the ledger receipt and the backend
response are supplied by a `ClientEnv`.  Each swap function additionally
returns the list of user-signed transfer transactions it submitted, so
that "exactly one signature per batch" is an observable fact.
-/

/-- Outcome of the raw association `fetch` inside `isTokenAssociated`:
the call can throw, return a non-ok status, or return parsed JSON whose
`tokens` field may be absent. -/
inductive FetchResult where
  /-- the `fetch` or JSON parse threw (network error, parse failure). -/
  | throwErr (msg : String)
  /-- `response.ok` was false. -/
  | notOk (status : Nat)
  /-- a parsed body; `tokens` is the optional `data.tokens` array. -/
  | ok (tokens : Option (List String))
deriving Repr, DecidableEq

/-- `isTokenAssociated` (swapTransaction.ts): returns
`data.tokens && data.tokens.length > 0`, with every failure path caught
and mapped to `false`.  An absent `tokens` field is JS-falsy, hence
`false`. -/
def isTokenAssociated : FetchResult → Bool
  | FetchResult.throwErr _ => false
  | FetchResult.notOk _ => false
  | FetchResult.ok none => false
  | FetchResult.ok (some ts) => decide (0 < ts.length)

/-- `checkTokenAssociation` (mirrorNodeService.ts): the query goes through
`fetchFromMirrorNode`, which either throws (`Except.error`) or returns
parsed JSON; any thrown error is caught and mapped to `false`. -/
def checkTokenAssociation : Except String (Option (List String)) → Bool
  | Except.error _ => false
  | Except.ok none => false
  | Except.ok (some ts) => decide (0 < ts.length)

/-- Environment of one client-side swap call: wallet connection and
signer availability, the association query's raw outcome, the receipt
status and transaction id of the user-signed transfer, and the backend
`/api/swap` response. -/
structure ClientEnv where
  walletConnected : Bool
  signerAvailable : Bool
  assocFetch : FetchResult
  receiptStatus : String
  txId : String
  backendOk : Bool
  backendTxId : String
  backendError : Option String
deriving Repr, DecidableEq

/-- `SwapResult` (swapTransaction.ts). -/
structure SwapResult where
  success : Bool
  transactionId : Option String
  error : Option String
  serialNumber : Option Nat
deriving Repr, DecidableEq

/-- `BatchSwapResult` (swapTransaction.ts). -/
structure BatchSwapResult where
  success : Bool
  transactionId : Option String
  error : Option String
  serialNumbers : List Nat
  successfulSerials : Option (List Nat)
  failedSerials : Option (List Nat)
deriving Repr, DecidableEq

/-- `swapSingleNFT`: association check (unless skipped), then one
user-signed transfer of the old token to the blackhole, then the backend
call.  The second component lists the transfers submitted for signing:
empty on every path that fails before `executeWithSigner`. -/
def swapSingleNFT (userAccountId : String) (serialNumber : Nat)
    (skipAssociationCheck : Bool) (env : ClientEnv) :
    SwapResult × List (List NftTransfer) :=
  if !env.walletConnected then
    ({ success := false, transactionId := none,
       error := some "Wallet not connected", serialNumber := some serialNumber }, [])
  else if !env.signerAvailable then
    ({ success := false, transactionId := none,
       error := some "No signer available", serialNumber := some serialNumber }, [])
  else if !skipAssociationCheck && !isTokenAssociated env.assocFetch then
    ({ success := false, transactionId := none,
       error := some "TOKEN_NOT_ASSOCIATED", serialNumber := some serialNumber }, [])
  else
    let tx : List NftTransfer :=
      [{ tokenId := OLD_TOKEN_ID, serial := some serialNumber,
         sender := userAccountId, receiver := BLACKHOLE_ACCOUNT_ID }]
    if env.receiptStatus != "SUCCESS" then
      ({ success := false, transactionId := none,
         error := some ("Transaction failed with status: " ++ env.receiptStatus),
         serialNumber := some serialNumber }, [tx])
    else if !env.backendOk then
      ({ success := false, transactionId := none,
         error := some (env.backendError.getD "Backend swap failed"),
         serialNumber := some serialNumber }, [tx])
    else
      ({ success := true, transactionId := some env.backendTxId,
         error := none, serialNumber := some serialNumber }, [tx])

/-- `swapBatchNFTs`: one association check, then a single user-signed
transfer containing one entry per serial, then one backend call for the
whole batch.  The second component lists the transfers submitted for
signing. -/
def swapBatchNFTs (userAccountId : String) (serialNumbers : List Nat)
    (env : ClientEnv) : BatchSwapResult × List (List NftTransfer) :=
  if !env.walletConnected then
    ({ success := false, transactionId := none,
       error := some "Wallet not connected", serialNumbers := serialNumbers,
       successfulSerials := none, failedSerials := some serialNumbers }, [])
  else if !env.signerAvailable then
    ({ success := false, transactionId := none,
       error := some "No signer available", serialNumbers := serialNumbers,
       successfulSerials := none, failedSerials := some serialNumbers }, [])
  else if !isTokenAssociated env.assocFetch then
    ({ success := false, transactionId := none,
       error := some "TOKEN_NOT_ASSOCIATED", serialNumbers := serialNumbers,
       successfulSerials := none, failedSerials := some serialNumbers }, [])
  else
    let tx : List NftTransfer :=
      serialNumbers.map (fun s =>
        { tokenId := OLD_TOKEN_ID, serial := some s,
          sender := userAccountId, receiver := BLACKHOLE_ACCOUNT_ID })
    if env.receiptStatus != "SUCCESS" then
      ({ success := false, transactionId := none,
         error := some ("Transaction failed with status: " ++ env.receiptStatus),
         serialNumbers := serialNumbers,
         successfulSerials := none, failedSerials := some serialNumbers }, [tx])
    else if !env.backendOk then
      ({ success := false, transactionId := none,
         error := some (env.backendError.getD "Backend batch swap failed"),
         serialNumbers := serialNumbers,
         successfulSerials := none, failedSerials := some serialNumbers }, [tx])
    else
      ({ success := true, transactionId := some env.backendTxId,
         error := none, serialNumbers := serialNumbers,
         successfulSerials := some serialNumbers, failedSerials := none }, [tx])

/-- The batch split of `swapMultipleNFTs`:
`for (let i = 0; i < n; i += 10) batches.push(slice(i, i + 10))`. -/
def chunkBatches : List Nat → List (List Nat)
  | [] => []
  | x :: xs =>
    (x :: xs).take 10 :: chunkBatches ((x :: xs).drop 10)
termination_by l => l.length
decreasing_by
  simp only [List.length_drop, List.length_cons]
  omega

/-- The per-batch result conversion inside `swapMultipleNFTs`: a
successful batch yields one successful `SwapResult` per serial sharing
the batch's transaction id; a failed batch yields one failed result per
serial sharing the batch's error. -/
def batchToResults (userAccountId : String) (batch : List Nat)
    (env : ClientEnv) : List SwapResult :=
  let br := (swapBatchNFTs userAccountId batch env).1
  if br.success then
    batch.map (fun s =>
      { success := true, transactionId := br.transactionId,
        error := none, serialNumber := some s })
  else
    batch.map (fun s =>
      { success := false, transactionId := none,
        error := br.error, serialNumber := some s })

/-- The sequential batch loop of `swapMultipleNFTs`; `k` is the index of
the first remaining batch, used to select that batch's environment. -/
def runBatches (userAccountId : String) (envs : Nat → ClientEnv) :
    List (List Nat) → Nat → List SwapResult × List (List NftTransfer)
  | [], _ => ([], [])
  | b :: rest, k =>
    let subs := (swapBatchNFTs userAccountId b (envs k)).2
    let r := runBatches userAccountId envs rest (k + 1)
    (batchToResults userAccountId b (envs k) ++ r.1, subs ++ r.2)

/-- `swapMultipleNFTs`: split into batches of 10 and process them
strictly sequentially; `envs k` is the external world seen by batch
`k`.  The inter-batch 2-second pacing delay is pure timing and is not
modelled. -/
def swapMultipleNFTs (userAccountId : String) (serialNumbers : List Nat)
    (envs : Nat → ClientEnv) : List SwapResult × List (List NftTransfer) :=
  runBatches userAccountId envs (chunkBatches serialNumbers) 0

/-! ## Mirror-node query client (src/utils/mirrorNodeService.ts)

`fetchFromMirrorNode` is a `while (attempts < maxRetries)` loop over the
process-wide rotation index and per-node rate counters.  `Date.now()` is
modelled as a clock that strictly advances between loop iterations (by
`1 + tick` milliseconds); this is what makes the busy-wait over
rate-limited nodes terminate, exactly as wall-clock progress does in the
source.  There are two configured mirror nodes, so node identity is the
index modulo 2.
-/

/-- Outcome of one HTTP request to a mirror node. -/
inductive MirrorFetch where
  /-- a 2xx response with parsed JSON payload (abstracted to a number). -/
  | ok (data : Nat)
  /-- a 429 rate-limit response. -/
  | rateLimited
  /-- any other failure: a non-ok status (the source throws
  `Mirror node request failed: <status>`) or a thrown network/parse
  error. -/
  | fail (msg : String)
deriving Repr, DecidableEq

/-- External world of one `fetchFromMirrorNode` call: the outcome of the
`k`-th HTTP request issued, and the extra milliseconds (beyond the
guaranteed 1) the clock advances at iteration `i`. -/
structure MirrorEnv where
  fetches : Nat → MirrorFetch
  tick : Nat → Nat

/-- One entry of the `requestCounts` map. -/
structure NodeStats where
  count : Nat
  resetTime : Nat
deriving Repr, DecidableEq

/-- The loop state: module-level mutables (`currentNodeIndex`,
`requestCounts`), the loop locals (`attempts`, `lastError`), the clock,
and the observable trace (number of HTTP requests issued, sleep durations
performed). -/
structure MirrorState where
  attempts : Nat
  nodeIndex : Nat
  stats0 : Option NodeStats
  stats1 : Option NodeStats
  now : Nat
  iter : Nat
  fetchCount : Nat
  sleeps : List Nat
  lastError : Option String
deriving Repr, DecidableEq

/-- `requestCounts.get(MIRROR_NODES[node])` for the two configured
nodes. -/
def statsOf (s : MirrorState) (node : Nat) : Option NodeStats :=
  if node % 2 == 0 then s.stats0 else s.stats1

/-- `requestCounts.set(MIRROR_NODES[node], v)`. -/
def setStats (s : MirrorState) (node : Nat) (v : Option NodeStats) : MirrorState :=
  if node % 2 == 0 then { s with stats0 := v } else { s with stats1 := v }

/-- `isApproachingRateLimit`: no entry means not limited; an entry past
its window means not limited; otherwise limited when the count reached
the threshold 80.  The source also deletes an expired entry here; with a
monotone clock an expired entry is observationally identical to an
absent one (both here and in `trackRequest`), so the deletion is not
modelled. -/
def isApproachingRateLimit (s : MirrorState) (node : Nat) : Bool :=
  match statsOf s node with
  | none => false
  | some st => if s.now > st.resetTime then false else decide (st.count ≥ 80)

/-- `trackRequest`: start a fresh window of count 1 when the entry is
absent or expired, else increment the count. -/
def bumpStats (now : Nat) : Option NodeStats → NodeStats
  | none => { count := 1, resetTime := now + 10000 }
  | some st =>
    if now > st.resetTime then { count := 1, resetTime := now + 10000 }
    else { count := st.count + 1, resetTime := st.resetTime }

/-- Result of `fetchFromMirrorNode`: either the parsed JSON or the thrown
error, plus the observable trace. -/
inductive MirrorOutcome where
  | success (data : Nat)
  | failure (msg : String)
deriving Repr, DecidableEq

/-- A `fetchFromMirrorNode` return value together with its observable
trace: how many HTTP requests were issued and which sleeps were
performed. -/
structure MirrorResult where
  outcome : MirrorOutcome
  fetchCount : Nat
  sleeps : List Nat
deriving Repr, DecidableEq

/-- The larger of the two nodes' window expiry times; used as the
termination measure of the rate-limit busy-wait. -/
def maxReset (s : MirrorState) : Nat :=
  max (match s.stats0 with | none => 0 | some st => st.resetTime)
      (match s.stats1 with | none => 0 | some st => st.resetTime)

/-- The `while (attempts < maxRetries)` loop of `fetchFromMirrorNode`.
Each iteration first observes a strictly later clock, then either skips a
rate-limited node (rotating, without counting an attempt), or issues the
next HTTP request: a 2xx returns; a 429 rotates, counts an attempt and
sleeps 1 second unconditionally; any other failure records it in
`lastError`, rotates, counts an attempt and sleeps 1 second only when
budget remains.  When the budget is exhausted the loop throws
`lastError` or `All mirror nodes failed`. -/
def fetchLoop (env : MirrorEnv) (maxRetries : Nat) (s : MirrorState) : MirrorResult :=
  if h : s.attempts < maxRetries then
    let s1 : MirrorState :=
      { s with now := s.now + 1 + env.tick s.iter, iter := s.iter + 1 }
    if hl : isApproachingRateLimit s1 s1.nodeIndex then
      fetchLoop env maxRetries { s1 with nodeIndex := (s1.nodeIndex + 1) % 2 }
    else
      let s2 := setStats s1 s1.nodeIndex (some (bumpStats s1.now (statsOf s1 s1.nodeIndex)))
      match env.fetches s1.fetchCount with
      | MirrorFetch.ok d =>
        { outcome := MirrorOutcome.success d,
          fetchCount := s1.fetchCount + 1, sleeps := s1.sleeps }
      | MirrorFetch.rateLimited =>
        fetchLoop env maxRetries
          { s2 with nodeIndex := (s1.nodeIndex + 1) % 2,
                    attempts := s1.attempts + 1,
                    fetchCount := s1.fetchCount + 1,
                    sleeps := s1.sleeps ++ [1000] }
      | MirrorFetch.fail msg =>
        if s1.attempts + 1 < maxRetries then
          fetchLoop env maxRetries
            { s2 with nodeIndex := (s1.nodeIndex + 1) % 2,
                      attempts := s1.attempts + 1,
                      fetchCount := s1.fetchCount + 1,
                      sleeps := s1.sleeps ++ [1000],
                      lastError := some msg }
        else
          fetchLoop env maxRetries
            { s2 with nodeIndex := (s1.nodeIndex + 1) % 2,
                      attempts := s1.attempts + 1,
                      fetchCount := s1.fetchCount + 1,
                      lastError := some msg }
  else
    { outcome := MirrorOutcome.failure (s.lastError.getD "All mirror nodes failed"),
      fetchCount := s.fetchCount, sleeps := s.sleeps }
termination_by (maxRetries - s.attempts, maxReset s + 1 - s.now)
decreasing_by
· have hb : s.now + 1 + env.tick s.iter ≤ maxReset s := by
    replace hl :
        isApproachingRateLimit
          { s with now := s.now + 1 + env.tick s.iter, iter := s.iter + 1 }
          s.nodeIndex = true := hl
    simp only [isApproachingRateLimit, statsOf] at hl
    split at hl
    next => simp at hl
    next st heq =>
      split at hl
      next => simp at hl
      next hle =>
        have hle2 : ¬ (s.now + 1 + env.tick s.iter > st.resetTime) := hle
        clear hle
        have hmax : st.resetTime ≤ maxReset s := by
          split at heq
          next =>
            have h0 : s.stats0 = some st := heq
            simp [maxReset, h0]
          next =>
            have h1 : s.stats1 = some st := heq
            simp [maxReset, h1]
        omega
  apply Prod.Lex.right
  show maxReset s + 1 - (s.now + 1 + env.tick s.iter) < maxReset s + 1 - s.now
  omega
· apply Prod.Lex.left
  show maxRetries - (s.attempts + 1) < maxRetries - s.attempts
  omega
· apply Prod.Lex.left
  show maxRetries - (s.attempts + 1) < maxRetries - s.attempts
  omega
· apply Prod.Lex.left
  show maxRetries - (s.attempts + 1) < maxRetries - s.attempts
  omega

/-- `fetchFromMirrorNode(endpoint, maxRetries = 3)`: run the loop from the
inherited module-level state (rotation index and rate counters persist
across calls) with fresh loop locals. -/
def fetchFromMirrorNode (env : MirrorEnv) (maxRetries : Nat)
    (nodeIndex : Nat) (stats0 stats1 : Option NodeStats) (now : Nat) : MirrorResult :=
  fetchLoop env maxRetries
    { attempts := 0, nodeIndex := nodeIndex, stats0 := stats0, stats1 := stats1,
      now := now, iter := 0, fetchCount := 0, sleeps := [], lastError := none }

/-! ## Concrete inputs used by witnesses and counterexamples -/

/-- A well-formed batch fulfillment request for serials 5, 6, 7. -/
def reqBatch567 : SwapRequest :=
  { method := "POST",
    oldNftTransactionId := some "0.0.2002@1700000000.000000001",
    userAccountId := some "0.0.2002",
    serialNumber := none,
    serialNumbers := some [5, 6, 7],
    isBatch := true }

/-- A non-batch fulfillment request with no `serialNumber` field. -/
def reqNoSerial : SwapRequest :=
  { method := "POST",
    oldNftTransactionId := some "0.0.2002@1700000000.000000001",
    userAccountId := some "0.0.2002",
    serialNumber := none,
    serialNumbers := none,
    isBatch := false }

/-- Mirror reports the treasury owns none of the queried serials. -/
def envNoneOwned : HandlerEnv :=
  { ownership := fun _ => OwnershipCheck.notOwned,
    receiptStatus := "SUCCESS", newTxId := "0.0.9300000@1700000001.000000002" }

/-- Mirror reports serial 6 as already disbursed, the rest owned. -/
def envSixMissing : HandlerEnv :=
  { ownership := fun s =>
      if s == some 6 then OwnershipCheck.notOwned else OwnershipCheck.owned,
    receiptStatus := "SUCCESS", newTxId := "0.0.9300000@1700000001.000000003" }

/-- Mirror reports every queried serial as owned by the treasury. -/
def envAllOwned : HandlerEnv :=
  { ownership := fun _ => OwnershipCheck.owned,
    receiptStatus := "SUCCESS", newTxId := "0.0.9300000@1700000001.000000004" }

/-- Every ownership query fails with a non-ok HTTP status. -/
def envAllHttpFail : HandlerEnv :=
  { ownership := fun _ => OwnershipCheck.httpFail,
    receiptStatus := "SUCCESS", newTxId := "0.0.9300000@1700000001.000000005" }

/-- Eleven serials: chunked into a batch of ten and a batch of one. -/
def elevenSerials : List Nat := [1, 2, 3, 4, 5, 6, 7, 8, 9, 10, 11]

/-- A healthy client environment: wallet connected, signer available,
associated, ledger accepts, backend accepts. -/
def envGood : ClientEnv :=
  { walletConnected := true, signerAvailable := true,
    assocFetch := FetchResult.ok (some ["0.0.10172732"]),
    receiptStatus := "SUCCESS", txId := "0.0.2002@1700000002.000000001",
    backendOk := true, backendTxId := "0.0.9300000@1700000002.000000002",
    backendError := none }

/-- Like `envGood` but the ledger returns a failing receipt status. -/
def envBadReceipt : ClientEnv :=
  { envGood with receiptStatus := "INSUFFICIENT_TOKEN_BALANCE" }

/-- Like `envGood` but the association query reports not associated. -/
def envNotAssociated : ClientEnv :=
  { envGood with assocFetch := FetchResult.ok (some []) }

/-- No wallet connected at all. -/
def noWalletEnv : ClientEnv :=
  { envGood with walletConnected := false, signerAvailable := false }

/-- Batch 0 hits a failing receipt, every later batch succeeds. -/
def envsMixed : Nat → ClientEnv :=
  fun k => if k == 0 then envBadReceipt else envGood

/-- Every HTTP request to a mirror node answers 429. -/
def allRateLimitedEnv : MirrorEnv :=
  { fetches := fun _ => MirrorFetch.rateLimited, tick := fun _ => 0 }

/-! ## Theorems -/

/-- The serials of the built treasury transfer are exactly the available
serials. -/
theorem treasuryTransfer_serials (req : SwapRequest) (env : HandlerEnv) :
    (treasuryTransfer req env).map NftTransfer.serial = availableSerials req env := by
  unfold treasuryTransfer
  generalize availableSerials req env = l
  induction l with
  | nil => rfl
  | cons a t ih => simp [ih]

/-- C1: for a well-formed fulfillment request none of whose serials the
treasury still owns at execution time, the handler responds 400 with the
`All requested NFTs have already been swapped` error and the full list of
requested serials as `missingSerials`, and submits no treasury-to-user
transfer. -/
theorem handler_all_already_swapped (req : SwapRequest) (env : HandlerEnv)
    (hpost : req.method = "POST") (hfields : fieldsMissing req = false)
    (hnone : ∀ s ∈ requestedSerials req, env.ownership s ≠ OwnershipCheck.owned) :
    handler req env =
      ({ status := 400,
         error := some "All requested NFTs have already been swapped",
         missingSerials := some (requestedSerials req) }, none) := by
  have hav : availableSerials req env = [] := by
    simp only [availableSerials, List.filter_eq_nil_iff]
    intro a ha
    simp [hnone a ha]
  have hmiss : missingSerials req env = requestedSerials req := by
    apply List.filter_eq_self.mpr
    intro a ha
    simp [hnone a ha]
  simp [handler, hpost, hfields, hav, hmiss]

/-- C1 witness: a batch request for serials 5, 6, 7 when the treasury has
already disbursed all three. -/
theorem handler_all_already_swapped_witness :
    handler reqBatch567 envNoneOwned =
      ({ status := 400,
         error := some "All requested NFTs have already been swapped",
         missingSerials := some [some 5, some 6, some 7] }, none) :=
  handler_all_already_swapped reqBatch567 envNoneOwned rfl rfl (by decide)

/-- C2: when the requested serials split into a non-empty available part
and a non-empty already-disbursed part and the treasury transfer settles,
the handler responds 200 with `success = true`, `serialNumbers` the
available serials and `missingSerials` the skipped ones, and the
submitted transfer moves exactly the available serials. -/
theorem handler_partial_success (req : SwapRequest) (env : HandlerEnv)
    (hpost : req.method = "POST") (hfields : fieldsMissing req = false)
    (hav : availableSerials req env ≠ []) (hmiss : missingSerials req env ≠ [])
    (hrcpt : env.receiptStatus = "SUCCESS") :
    handler req env =
      ({ status := 200, success := some true,
         transactionId := some env.newTxId,
         serialNumber := (availableSerials req env).head?,
         serialNumbers := some (availableSerials req env),
         missingSerials := some (missingSerials req env) },
       some (treasuryTransfer req env)) ∧
    (treasuryTransfer req env).map NftTransfer.serial = availableSerials req env := by
  constructor
  · simp [handler, hpost, hfields, hrcpt, hav, hmiss]
  · exact treasuryTransfer_serials req env

/-- C2 witness: serials 5, 6, 7 requested with 6 already disbursed yields
`serialNumbers = [5, 7]`, `missingSerials = [6]`, a 200 success, and a
transfer of exactly 5 and 7. -/
theorem handler_partial_success_witness :
    handler reqBatch567 envSixMissing =
      ({ status := 200, success := some true,
         transactionId := some "0.0.9300000@1700000001.000000003",
         serialNumber := some (some 5),
         serialNumbers := some [some 5, some 7],
         missingSerials := some [some 6] },
       some [{ tokenId := NEW_TOKEN_ID, serial := some 5,
               sender := TREASURY_ACCOUNT_ID, receiver := "0.0.2002" },
             { tokenId := NEW_TOKEN_ID, serial := some 7,
               sender := TREASURY_ACCOUNT_ID, receiver := "0.0.2002" }]) :=
  (handler_partial_success reqBatch567 envSixMissing rfl rfl
    (by decide) (by decide) rfl).1

/-- C3 (code bug): a non-batch request with no `serialNumber` is NOT
rejected by the required-fields guard — `serials` becomes the length-one
array `[undefined]` — so the handler proceeds to the ownership loop: if
the mirror were to report the undefined serial as owned, it would even
execute a transfer with an undefined serial and answer 200; with the
realistic failing ownership query it answers 400 but with the
already-swapped error, not the missing-fields one. -/
theorem handler_missing_serial_guard_gap :
    fieldsMissing reqNoSerial = false ∧
    (handler reqNoSerial envAllOwned).1.status = 200 ∧
    (handler reqNoSerial envAllOwned).2 =
      some [{ tokenId := NEW_TOKEN_ID, serial := none,
              sender := TREASURY_ACCOUNT_ID, receiver := "0.0.2002" }] ∧
    (handler reqNoSerial envAllHttpFail).1 =
      { status := 400,
        error := some "All requested NFTs have already been swapped",
        missingSerials := some [none] } :=
  ⟨rfl, rfl, rfl, rfl⟩

/-- C10: the serials the handler reports always partition the requested
serials — `availableSerials` and `missingSerials` are disjoint
order-preserving sublists jointly covering the request — and every
response list and every submitted transfer is drawn from exactly these:
`serialNumbers` (when present) is the available part, `missingSerials`
(when present) is the skipped part, and the submitted transfer's serials
are the available part. -/
theorem handler_partitions_request (req : SwapRequest) (env : HandlerEnv) :
    (availableSerials req env).Sublist (requestedSerials req) ∧
    (missingSerials req env).Sublist (requestedSerials req) ∧
    (∀ s, s ∈ requestedSerials req ↔
      (s ∈ availableSerials req env ∨ s ∈ missingSerials req env)) ∧
    (∀ s, ¬(s ∈ availableSerials req env ∧ s ∈ missingSerials req env)) ∧
    (∀ l, (handler req env).1.serialNumbers = some l → l = availableSerials req env) ∧
    (∀ l, (handler req env).1.missingSerials = some l → l = missingSerials req env) ∧
    (∀ tx, (handler req env).2 = some tx →
      tx.map NftTransfer.serial = availableSerials req env) := by
  have hshape :
      handler req env = ({ status := 405, error := some "Method not allowed" }, none) ∨
      handler req env =
        ({ status := 400,
           error := some "Missing required fields: oldNftTransactionId, userAccountId, and serialNumber(s)" },
         none) ∨
      handler req env =
        ({ status := 400,
           error := some "All requested NFTs have already been swapped",
           missingSerials := some (missingSerials req env) }, none) ∨
      handler req env =
        ({ status := 500,
           error := some ("New NFT transfer failed with status: " ++ env.receiptStatus) },
         some (treasuryTransfer req env)) ∨
      handler req env =
        ({ status := 200, success := some true,
           transactionId := some env.newTxId,
           serialNumber := (availableSerials req env).head?,
           serialNumbers := some (availableSerials req env),
           missingSerials := if (missingSerials req env).isEmpty then none
             else some (missingSerials req env) },
         some (treasuryTransfer req env)) := by
    simp only [handler]
    split
    next => exact Or.inl rfl
    next =>
      split
      next => exact Or.inr (Or.inl rfl)
      next =>
        split
        next => exact Or.inr (Or.inr (Or.inl rfl))
        next =>
          split
          next => exact Or.inr (Or.inr (Or.inr (Or.inl rfl)))
          next => exact Or.inr (Or.inr (Or.inr (Or.inr rfl)))
  have htx : (treasuryTransfer req env).map NftTransfer.serial =
      availableSerials req env := treasuryTransfer_serials req env
  refine ⟨List.filter_sublist _, List.filter_sublist _, ?_, ?_, ?_, ?_, ?_⟩
  · intro s
    simp only [availableSerials, missingSerials, List.mem_filter]
    constructor
    · intro hs
      cases hp : (env.ownership s == OwnershipCheck.owned) with
      | true => exact Or.inl ⟨hs, rfl⟩
      | false => exact Or.inr ⟨hs, rfl⟩
    · rintro (⟨hs, _⟩ | ⟨hs, _⟩) <;> exact hs
  · intro s hs
    have h1 := (List.mem_filter.mp hs.1).2
    have h2 := (List.mem_filter.mp hs.2).2
    simp [h1] at h2
  · intro l hl
    rcases hshape with h | h | h | h | h <;> rw [h] at hl <;> simp at hl
    exact hl.symm
  · intro l hl
    rcases hshape with h | h | h | h | h <;> rw [h] at hl <;> simp at hl
    · exact hl.symm
    · rcases hl with ⟨hne, hl⟩
      exact hl.symm
  · intro tx hl
    rcases hshape with h | h | h | h | h <;> rw [h] at hl <;> simp at hl <;>
      rw [← hl, htx]

/-- C10 witness: for the partial scenario the response's available list is
`[5, 7]` and serial 6 is never in both lists. -/
theorem handler_partitions_request_witness :
    ([some 5, some 7] : List (Option Nat)) = availableSerials reqBatch567 envSixMissing ∧
    ¬(some 6 ∈ availableSerials reqBatch567 envSixMissing ∧
      some 6 ∈ missingSerials reqBatch567 envSixMissing) :=
  ⟨(handler_partitions_request reqBatch567 envSixMissing).2.2.2.2.1
      [some 5, some 7] rfl,
   (handler_partitions_request reqBatch567 envSixMissing).2.2.2.1 (some 6)⟩

/-- C6: both association checks are fail-closed — every thrown query,
non-ok response, or response without a `tokens` link yields `false`, and
a `true` answer can only arise from a successful query whose `tokens`
list is non-empty. -/
theorem association_check_fail_closed :
    (∀ m, isTokenAssociated (FetchResult.throwErr m) = false) ∧
    (∀ st, isTokenAssociated (FetchResult.notOk st) = false) ∧
    isTokenAssociated (FetchResult.ok none) = false ∧
    (∀ r, isTokenAssociated r = true → ∃ ts, r = FetchResult.ok (some ts) ∧ ts ≠ []) ∧
    (∀ m, checkTokenAssociation (Except.error m) = false) ∧
    checkTokenAssociation (Except.ok none) = false ∧
    (∀ q, checkTokenAssociation q = true → ∃ ts, q = Except.ok (some ts) ∧ ts ≠ []) := by
  refine ⟨fun m => rfl, fun st => rfl, rfl, ?_, fun m => rfl, rfl, ?_⟩
  · intro r hr
    match r with
    | FetchResult.throwErr m => simp [isTokenAssociated] at hr
    | FetchResult.notOk st => simp [isTokenAssociated] at hr
    | FetchResult.ok none => simp [isTokenAssociated] at hr
    | FetchResult.ok (some ts) =>
      refine ⟨ts, rfl, ?_⟩
      simp only [isTokenAssociated, decide_eq_true_eq] at hr
      exact List.ne_nil_of_length_pos hr
  · intro q hq
    match q with
    | Except.error m => simp [checkTokenAssociation] at hq
    | Except.ok none => simp [checkTokenAssociation] at hq
    | Except.ok (some ts) =>
      refine ⟨ts, rfl, ?_⟩
      simp only [checkTokenAssociation, decide_eq_true_eq] at hq
      exact List.ne_nil_of_length_pos hq

/-- C6 witness: a `true` answer at a concrete successful query exposes its
non-empty token list. -/
theorem association_check_fail_closed_witness :
    ∃ ts, FetchResult.ok (some ["0.0.10172732"]) = FetchResult.ok (some ts) ∧ ts ≠ [] :=
  association_check_fail_closed.2.2.2.1 (FetchResult.ok (some ["0.0.10172732"])) rfl

/-- C8: a single swap with the association check enabled and the new
token not associated fails with the distinguished `TOKEN_NOT_ASSOCIATED`
error and submits no transfer at all. -/
theorem swap_single_not_associated (user : String) (serial : Nat) (env : ClientEnv)
    (hw : env.walletConnected = true) (hs : env.signerAvailable = true)
    (ha : isTokenAssociated env.assocFetch = false) :
    swapSingleNFT user serial false env =
      ({ success := false, transactionId := none,
         error := some "TOKEN_NOT_ASSOCIATED", serialNumber := some serial }, []) := by
  simp [swapSingleNFT, hw, hs, ha]

/-- C8 witness: serial 42 against an environment whose association query
reports an empty token list. -/
theorem swap_single_not_associated_witness :
    swapSingleNFT "0.0.2002" 42 false envNotAssociated =
      ({ success := false, transactionId := none,
         error := some "TOKEN_NOT_ASSOCIATED", serialNumber := some 42 }, []) :=
  swap_single_not_associated "0.0.2002" 42 envNotAssociated rfl rfl rfl

/-- C5: once the connection, signer and association checks pass, a batch
of at most ten serials is submitted for signing exactly once, as a single
transfer containing one old-token-to-blackhole entry per serial —
regardless of how the ledger or the backend answer. -/
theorem swap_batch_one_signature (user : String) (serials : List Nat) (env : ClientEnv)
    (hlen : serials.length ≤ 10)
    (hw : env.walletConnected = true) (hs : env.signerAvailable = true)
    (ha : isTokenAssociated env.assocFetch = true) :
    (swapBatchNFTs user serials env).2 =
      [serials.map (fun s =>
        { tokenId := OLD_TOKEN_ID, serial := some s,
          sender := user, receiver := BLACKHOLE_ACCOUNT_ID })] := by
  simp only [swapBatchNFTs, hw, hs, ha, Bool.not_true, Bool.false_eq_true,
    if_false]
  split
  · rfl
  · split <;> rfl

/-- C5 witness: a ten-serial batch in a healthy environment yields one
submission with ten entries. -/
theorem swap_batch_one_signature_witness :
    (swapBatchNFTs "0.0.2002" [1, 2, 3, 4, 5, 6, 7, 8, 9, 10] envGood).2 =
      [[1, 2, 3, 4, 5, 6, 7, 8, 9, 10].map (fun s =>
        { tokenId := OLD_TOKEN_ID, serial := some s,
          sender := "0.0.2002", receiver := BLACKHOLE_ACCOUNT_ID })] :=
  swap_batch_one_signature "0.0.2002" [1, 2, 3, 4, 5, 6, 7, 8, 9, 10] envGood
    (by decide) rfl rfl rfl

/-- The batch split produces exactly the ceiling of `n / 10` batches. -/
theorem chunkBatches_length (l : List Nat) :
    (chunkBatches l).length = (l.length + 9) / 10 := by
  induction l using chunkBatches.induct with
  | case1 => simp [chunkBatches]
  | case2 x xs ih =>
    simp only [chunkBatches, List.length_cons, List.length_drop] at *
    omega

/-- Concatenating the batches recovers the original serial list. -/
theorem chunkBatches_join (l : List Nat) : (chunkBatches l).flatten = l := by
  induction l using chunkBatches.induct with
  | case1 => simp [chunkBatches]
  | case2 x xs ih =>
    simp only [chunkBatches, List.flatten_cons, ih, List.take_append_drop]

/-- Every batch holds at most ten serials. -/
theorem chunkBatches_le (l : List Nat) : ∀ b ∈ chunkBatches l, b.length ≤ 10 := by
  induction l using chunkBatches.induct with
  | case1 => intro b hb; simp [chunkBatches] at hb
  | case2 x xs ih =>
    intro b hb
    simp only [chunkBatches, List.mem_cons] at hb
    rcases hb with rfl | hb
    · rw [List.length_take]
      exact min_le_left _ _
    · exact ih b hb

/-- The per-batch conversion yields exactly one result per serial, in
order. -/
theorem batchToResults_map_serial (user : String) (b : List Nat) (env : ClientEnv) :
    (batchToResults user b env).map SwapResult.serialNumber = b.map some := by
  simp only [batchToResults]
  split <;> simp [List.map_map, Function.comp_def]

/-- The sequential batch loop yields exactly one result per serial of the
joined batches, in order. -/
theorem runBatches_map_serial (user : String) (envs : Nat → ClientEnv) :
    ∀ (bs : List (List Nat)) (k : Nat),
      ((runBatches user envs bs k).1).map SwapResult.serialNumber =
        bs.flatten.map some := by
  intro bs
  induction bs with
  | nil => intro k; rfl
  | cons b rest ih =>
    intro k
    simp only [runBatches, List.flatten_cons, List.map_append,
      batchToResults_map_serial, ih]

/-- Every result produced for batch `j` is in the loop's aggregate result,
whatever the other batches did. -/
theorem mem_runBatches (user : String) (envs : Nat → ClientEnv) :
    ∀ (bs : List (List Nat)) (k j : Nat) (b : List Nat),
      bs.get? j = some b →
      ∀ r ∈ batchToResults user b (envs (k + j)),
        r ∈ (runBatches user envs bs k).1 := by
  intro bs
  induction bs with
  | nil => intro k j b hj; simp at hj
  | cons hd rest ih =>
    intro k j b hj r hr
    cases j with
    | zero =>
      simp only [List.get?, Option.some.injEq] at hj
      subst hj
      simp only [runBatches]
      exact List.mem_append_left _ (by simpa using hr)
    | succ j2 =>
      simp only [List.get?] at hj
      have hidx : k + (j2 + 1) = (k + 1) + j2 := by omega
      rw [hidx] at hr
      simp only [runBatches]
      exact List.mem_append_right _ (ih (k + 1) j2 b hj r hr)

/-- C4: `swapMultipleNFTs` splits the serials in order into
`ceil(N/10)` batches of at most ten, produces exactly one result per
serial in order, and every batch contributes its results regardless of
how other batches fared: a successful batch's serials appear as
`success = true` sharing that batch's transaction id, a failed batch's
serials appear as `success = false` sharing that batch's error. -/
theorem swap_multiple_batches (user : String) (serials : List Nat)
    (envs : Nat → ClientEnv) :
    (chunkBatches serials).length = (serials.length + 9) / 10 ∧
    (chunkBatches serials).flatten = serials ∧
    (∀ b ∈ chunkBatches serials, b.length ≤ 10) ∧
    ((swapMultipleNFTs user serials envs).1.map SwapResult.serialNumber =
      serials.map some) ∧
    (∀ k b, (chunkBatches serials).get? k = some b →
      ((swapBatchNFTs user b (envs k)).1.success = true →
        ∀ s ∈ b,
          ({ success := true,
             transactionId := (swapBatchNFTs user b (envs k)).1.transactionId,
             error := none, serialNumber := some s } : SwapResult) ∈
            (swapMultipleNFTs user serials envs).1) ∧
      ((swapBatchNFTs user b (envs k)).1.success = false →
        ∀ s ∈ b,
          ({ success := false, transactionId := none,
             error := (swapBatchNFTs user b (envs k)).1.error,
             serialNumber := some s } : SwapResult) ∈
            (swapMultipleNFTs user serials envs).1)) := by
  refine ⟨chunkBatches_length serials, chunkBatches_join serials,
    chunkBatches_le serials, ?_, ?_⟩
  · have h := runBatches_map_serial user envs (chunkBatches serials) 0
    rw [chunkBatches_join] at h
    exact h
  · intro k b hk
    constructor
    · intro hsucc s hs
      have hmem :
          ({ success := true,
             transactionId := (swapBatchNFTs user b (envs k)).1.transactionId,
             error := none, serialNumber := some s } : SwapResult) ∈
            batchToResults user b (envs k) := by
        simp only [batchToResults, hsucc, if_true]
        exact List.mem_map_of_mem _ hs
      exact mem_runBatches user envs (chunkBatches serials) 0 k b hk _
        (by rw [Nat.zero_add]; exact hmem)
    · intro hfail s hs
      have hmem :
          ({ success := false, transactionId := none,
             error := (swapBatchNFTs user b (envs k)).1.error,
             serialNumber := some s } : SwapResult) ∈
            batchToResults user b (envs k) := by
        simp only [batchToResults, hfail, Bool.false_eq_true, if_false]
        exact List.mem_map_of_mem _ hs
      exact mem_runBatches user envs (chunkBatches serials) 0 k b hk _
        (by rw [Nat.zero_add]; exact hmem)

/-- C4 witness: eleven serials where batch 0 hits a failing receipt and
batch 1 succeeds — serial 1 is reported failed with batch 0's shared
error and serial 11 succeeds with batch 1's transaction id. -/
theorem swap_multiple_batches_witness :
    ({ success := false, transactionId := none,
       error := some ("Transaction failed with status: " ++ "INSUFFICIENT_TOKEN_BALANCE"),
       serialNumber := some 1 } : SwapResult) ∈
      (swapMultipleNFTs "0.0.2002" elevenSerials envsMixed).1 ∧
    ({ success := true, transactionId := some "0.0.9300000@1700000002.000000002",
       error := none, serialNumber := some 11 } : SwapResult) ∈
      (swapMultipleNFTs "0.0.2002" elevenSerials envsMixed).1 := by
  have hc : chunkBatches elevenSerials = [[1, 2, 3, 4, 5, 6, 7, 8, 9, 10], [11]] := by
    simp [chunkBatches, elevenSerials]
  constructor
  · exact ((swap_multiple_batches "0.0.2002" elevenSerials envsMixed).2.2.2.2 0
      [1, 2, 3, 4, 5, 6, 7, 8, 9, 10] (by rw [hc]; rfl)).2 (by decide) 1 (by decide)
  · exact ((swap_multiple_batches "0.0.2002" elevenSerials envsMixed).2.2.2.2 1
      [11] (by rw [hc]; rfl)).1 (by decide) 11 (by decide)

/-- C7 counterexample: with no wallet connected, the connection failure
of batch 0 does NOT abort the operation — the second batch (serial 11) is
still attempted and contributes its own `Wallet not connected` failure
result, because `swapBatchNFTs` catches the connection error inside its
own try/catch and `swapMultipleNFTs` keeps iterating. -/
theorem wallet_failure_does_not_abort :
    (swapMultipleNFTs "0.0.2002" elevenSerials (fun _ => noWalletEnv)).1.length = 11 ∧
    ({ success := false, transactionId := none,
       error := some "Wallet not connected", serialNumber := some 11 } : SwapResult) ∈
      (swapMultipleNFTs "0.0.2002" elevenSerials (fun _ => noWalletEnv)).1 := by
  have hc : chunkBatches elevenSerials = [[1, 2, 3, 4, 5, 6, 7, 8, 9, 10], [11]] := by
    simp [chunkBatches, elevenSerials]
  simp only [swapMultipleNFTs, hc]
  exact ⟨rfl, by decide⟩

/-- C7 (amended): per-serial and per-batch errors, including the
connection-level ones (`Wallet not connected`), are captured into the
result collection without aborting sibling batches: every serial gets
exactly one result, and every batch whose environment has no wallet
contributes a failed result per serial while the remaining batches are
still processed. -/
theorem errors_captured_not_aborting (user : String) (serials : List Nat)
    (envs : Nat → ClientEnv) :
    ((swapMultipleNFTs user serials envs).1.map SwapResult.serialNumber =
      serials.map some) ∧
    (∀ k b, (chunkBatches serials).get? k = some b →
      (envs k).walletConnected = false →
      ∀ s ∈ b,
        ({ success := false, transactionId := none,
           error := some "Wallet not connected", serialNumber := some s } : SwapResult) ∈
          (swapMultipleNFTs user serials envs).1) := by
  constructor
  · have h := runBatches_map_serial user envs (chunkBatches serials) 0
    rw [chunkBatches_join] at h
    exact h
  · intro k b hk hw s hs
    have hbatch : (swapBatchNFTs user b (envs k)).1 =
        { success := false, transactionId := none,
          error := some "Wallet not connected", serialNumbers := b,
          successfulSerials := none, failedSerials := some b } := by
      simp [swapBatchNFTs, hw]
    have hmem :
        ({ success := false, transactionId := none,
           error := some "Wallet not connected",
           serialNumber := some s } : SwapResult) ∈
          batchToResults user b (envs k) := by
      simp only [batchToResults, hbatch]
      simp only [Bool.false_eq_true, if_false]
      exact List.mem_map_of_mem _ hs
    exact mem_runBatches user envs (chunkBatches serials) 0 k b hk _
      (by rw [Nat.zero_add]; exact hmem)

/-- C7 (amended) witness: batch 0's serial 5 is reported as a captured
`Wallet not connected` failure in the aggregate result. -/
theorem errors_captured_not_aborting_witness :
    ({ success := false, transactionId := none,
       error := some "Wallet not connected", serialNumber := some 5 } : SwapResult) ∈
      (swapMultipleNFTs "0.0.2002" elevenSerials (fun _ => noWalletEnv)).1 := by
  have hc : chunkBatches elevenSerials = [[1, 2, 3, 4, 5, 6, 7, 8, 9, 10], [11]] := by
    simp [chunkBatches, elevenSerials]
  exact (errors_captured_not_aborting "0.0.2002" elevenSerials (fun _ => noWalletEnv)).2
    0 [1, 2, 3, 4, 5, 6, 7, 8, 9, 10] (by rw [hc]; rfl) rfl 5 (by decide)

/-- Updating a node's rate-counter entry leaves the sleep trace
unchanged. -/
theorem setStats_sleeps (s : MirrorState) (node : Nat) (v : Option NodeStats) :
    (setStats s node v).sleeps = s.sleeps := by
  unfold setStats
  split <;> rfl

theorem fetchLoop_spec (env : MirrorEnv) (maxRetries : Nat) (s : MirrorState) :
    (fetchLoop env maxRetries s).fetchCount ≤ s.fetchCount + (maxRetries - s.attempts) ∧
    (∀ d ∈ (fetchLoop env maxRetries s).sleeps, d ∈ s.sleeps ∨ d = 1000) ∧
    ((∀ k d, env.fetches k ≠ MirrorFetch.ok d) →
      ∃ msg, (fetchLoop env maxRetries s).outcome = MirrorOutcome.failure msg) := by
  refine fetchLoop.induct env maxRetries
    (fun s =>
      (fetchLoop env maxRetries s).fetchCount ≤ s.fetchCount + (maxRetries - s.attempts) ∧
      (∀ d ∈ (fetchLoop env maxRetries s).sleeps, d ∈ s.sleeps ∨ d = 1000) ∧
      ((∀ k d, env.fetches k ≠ MirrorFetch.ok d) →
        ∃ msg, (fetchLoop env maxRetries s).outcome = MirrorOutcome.failure msg))
    ?_ ?_ ?_ ?_ ?_ ?_ s
  · intro x h s1 hl ih
    rw [fetchLoop, dif_pos h]
    dsimp only
    unfold s1 at hl
    dsimp only at hl ih
    rw [dif_pos hl]
    exact ih
  · intro x h s1 hl d heq
    rw [fetchLoop, dif_pos h]
    dsimp only
    unfold s1 at hl heq
    dsimp only at hl heq
    rw [dif_neg hl, heq]
    dsimp only
    exact ⟨by omega, fun d2 hd => Or.inl hd, fun hall => absurd heq (hall _ d)⟩
  · intro x h s1 hl s2 heq ih
    rw [fetchLoop, dif_pos h]
    dsimp only
    unfold s2 at ih
    unfold s1 at hl heq ih
    dsimp only at hl heq ih
    obtain ⟨ih1, ih2, ih3⟩ := ih
    rw [dif_neg hl, heq]
    dsimp only
    refine ⟨by omega, ?_, ih3⟩
    intro d hd
    rcases ih2 d hd with hmem | hval
    · rcases List.mem_append.mp hmem with hmem2 | hmem2
      · exact Or.inl hmem2
      · exact Or.inr (List.mem_singleton.mp hmem2)
    · exact Or.inr hval
  · intro x h s1 hl s2 a heq hb ih
    rw [fetchLoop, dif_pos h]
    dsimp only
    unfold s2 at ih
    unfold s1 at hl heq hb ih
    dsimp only at hl heq hb ih
    obtain ⟨ih1, ih2, ih3⟩ := ih
    rw [dif_neg hl, heq]
    dsimp only
    rw [if_pos hb]
    refine ⟨by omega, ?_, ih3⟩
    intro d hd
    rcases ih2 d hd with hmem | hval
    · rcases List.mem_append.mp hmem with hmem2 | hmem2
      · exact Or.inl hmem2
      · exact Or.inr (List.mem_singleton.mp hmem2)
    · exact Or.inr hval
  · intro x h s1 hl s2 a heq hb ih
    rw [fetchLoop, dif_pos h]
    dsimp only
    unfold s2 at ih
    unfold s1 at hl heq hb ih
    dsimp only at hl heq hb ih
    obtain ⟨ih1, ih2, ih3⟩ := ih
    rw [dif_neg hl, heq]
    dsimp only
    rw [if_neg hb]
    simp only [setStats_sleeps] at ih1 ih2 ih3 ⊢
    exact ⟨by omega, ih2, ih3⟩
  · intro x h
    rw [fetchLoop, dif_neg h]
    exact ⟨Nat.le_add_right _ _, fun d hd => Or.inl hd, fun _ => ⟨_, rfl⟩⟩


/-- C9: `fetchFromMirrorNode` issues at most `maxRetries` (default 3)
HTTP request attempts, every backoff it performs between retries is the
fixed 1 second (also on a 429), and it terminates on every input — the
embedding is a total function — throwing the recorded error or
`All mirror nodes failed` once the budget is exhausted, in particular
whenever no request ever succeeds. -/
theorem fetch_retry_budget (env : MirrorEnv) (maxRetries nodeIndex : Nat)
    (stats0 stats1 : Option NodeStats) (now : Nat) :
    (fetchFromMirrorNode env maxRetries nodeIndex stats0 stats1 now).fetchCount ≤ maxRetries ∧
    (∀ d ∈ (fetchFromMirrorNode env maxRetries nodeIndex stats0 stats1 now).sleeps,
      d = 1000) ∧
    ((∀ k d, env.fetches k ≠ MirrorFetch.ok d) →
      ∃ msg, (fetchFromMirrorNode env maxRetries nodeIndex stats0 stats1 now).outcome =
        MirrorOutcome.failure msg) := by
  simp only [fetchFromMirrorNode]
  obtain ⟨h1, h2, h3⟩ := fetchLoop_spec env maxRetries
    { attempts := 0, nodeIndex := nodeIndex, stats0 := stats0, stats1 := stats1,
      now := now, iter := 0, fetchCount := 0, sleeps := [], lastError := none }
  refine ⟨by simpa using h1, ?_, h3⟩
  intro d hd
  rcases h2 d hd with hmem | hval
  · simp at hmem
  · exact hval

/-- C9 witness: with every request answered 429, a fresh call with the
default budget of 3 makes at most 3 attempts and throws. -/
theorem fetch_retry_budget_witness :
    (fetchFromMirrorNode allRateLimitedEnv 3 0 none none 0).fetchCount ≤ 3 ∧
    (∃ msg, (fetchFromMirrorNode allRateLimitedEnv 3 0 none none 0).outcome =
      MirrorOutcome.failure msg) := by
  have h := fetch_retry_budget allRateLimitedEnv 3 0 none none 0
  exact ⟨h.1, h.2.2 (fun k d hk => MirrorFetch.noConfusion hk)⟩

end DegenApeSwap
